import Mathlib

/-!
Verification development for a small role-based-access-control gym booking
service (FastAPI + SQLAlchemy).  The data model and the operations are a
shallow embedding of the Python source: rows become structures, the database
session becomes an explicit `DB` value threaded through the operations, and
HTTP exceptions become explicit error results carrying their status code and
detail string.  Machine integers of the source are Python arbitrary-precision
integers, so they are embedded as `Nat` (identifiers, counts) and `Int`
(capacities, timestamps) with no wrap-around.
-/

/-- Row of the `users` table (`app/models.py`, class `DBUser`). -/
structure DBUser where
  id : Nat
  email : String
  name : String
  hashed_password : String
  role : String
  is_active : Bool
deriving Repr, DecidableEq

/-- Row of the `classes` table (`app/models.py`, class `DBClass`).
`max_capacity` is a plain integer column: the schema does not constrain its
sign, so it is embedded as `Int`. -/
structure DBClass where
  id : Nat
  name : String
  trainer_id : Nat
  max_capacity : Int
  duration_minutes : Int
deriving Repr, DecidableEq

/-- Row of the `bookings` table (`app/models.py`, class `DBBooking`). -/
structure DBBooking where
  id : Nat
  class_id : Nat
  member_id : Nat
deriving Repr, DecidableEq

/-- The database state: the three tables plus the auto-increment counters for
their integer primary keys. -/
structure DB where
  users : List DBUser
  classes : List DBClass
  bookings : List DBBooking
  nextUserId : Nat
  nextClassId : Nat
  nextBookingId : Nat
deriving Repr, DecidableEq

/-- The empty database right after `Base.metadata.create_all`: no rows,
auto-increment counters at 1. -/
def emptyDB : DB :=
  { users := [], classes := [], bookings := [],
    nextUserId := 1, nextClassId := 1, nextBookingId := 1 }

/-- Pydantic schema `UserCreate` (`app/schemas.py`): registration request.
The `role` field exists on the wire (default "member") but is ignored by
`create_user`. -/
structure UserCreate where
  email : String
  name : String
  role : String
  password : String
deriving Repr, DecidableEq

/-- Pydantic schema `ClassCreate` (`app/schemas.py`). -/
structure ClassCreate where
  name : String
  trainer_id : Nat
  max_capacity : Int
  duration_minutes : Int
deriving Repr, DecidableEq

/-- Pydantic schema `BookingCreate` (`app/schemas.py`). -/
structure BookingCreate where
  class_id : Nat
  member_id : Nat
deriving Repr, DecidableEq

/-- Pydantic schema `UserPublic` (`app/schemas.py`): the public view of an
account returned by the API and used as the authenticated identity. -/
structure UserPublic where
  email : String
  name : String
  role : String
  id : Nat
deriving Repr, DecidableEq

/-- Embeds `UserPublic.model_validate(db_user)`: the public view copies the
row's fields (including the role currently stored in the database). -/
def UserPublic.model_validate (u : DBUser) : UserPublic :=
  { email := u.email, name := u.name, role := u.role, id := u.id }

/-- Embeds `passlib`'s bcrypt hashing (`app/auth.py`, `get_password_hash`).
The hashing library is an external collaborator treated as an opaque one-way
function (spec section 1); no claim depends on its internals. -/
def get_password_hash (password : String) : String :=
  String.append "bcrypt$" password

/-- Embeds `crud.get_user_by_email`: first row of `users` whose email matches. -/
def get_user_by_email (db : DB) (email : String) : Option DBUser :=
  db.users.find? (fun u => u.email == email)

/-- Embeds `crud.get_user_by_id`: first row of `users` whose primary key
matches. -/
def get_user_by_id (db : DB) (user_id : Nat) : Option DBUser :=
  db.users.find? (fun u => u.id == user_id)

/-- Embeds `crud.create_user`: inserts a new user row with the role hardcoded
to "member" (the request's `role` field is not consulted), returning the
refreshed row and the new state. -/
def create_user (db : DB) (user : UserCreate) : DBUser × DB :=
  let db_user : DBUser :=
    { id := db.nextUserId, email := user.email, name := user.name,
      hashed_password := get_password_hash user.password,
      role := "member", is_active := true }
  (db_user,
   { db with users := db.users ++ [db_user], nextUserId := db.nextUserId + 1 })

/-- Helper for `update_user_role`: the SQLAlchemy session mutates the single
fetched row object (`db_user.role = role`), i.e. the first row whose primary
key matches; all other rows are untouched. -/
def setRoleFirst (users : List DBUser) (user_id : Nat) (role : String) :
    List DBUser :=
  match users with
  | [] => []
  | u :: us =>
    if u.id == user_id then { u with role := role } :: us
    else u :: setRoleFirst us user_id role

/-- Embeds `crud.update_user_role`: fetch the user by id; if present, set its
role and commit, returning the refreshed row; if absent, return `none` with
the state unchanged. -/
def update_user_role (db : DB) (user_id : Nat) (role : String) :
    Option DBUser × DB :=
  match get_user_by_id db user_id with
  | none => (none, db)
  | some db_user =>
    (some { db_user with role := role },
     { db with users := setRoleFirst db.users user_id role })

/-- Embeds `crud.create_class`: inserts a class row built from the request
(no validation of `max_capacity` or of `trainer_id`). -/
def create_class (db : DB) (gym_class : ClassCreate) : DBClass × DB :=
  let db_class : DBClass :=
    { id := db.nextClassId, name := gym_class.name,
      trainer_id := gym_class.trainer_id,
      max_capacity := gym_class.max_capacity,
      duration_minutes := gym_class.duration_minutes }
  (db_class,
   { db with classes := db.classes ++ [db_class],
             nextClassId := db.nextClassId + 1 })

/-- Embeds `crud.get_class_by_id`: first row of `classes` whose primary key
matches. -/
def get_class_by_id (db : DB) (class_id : Nat) : Option DBClass :=
  db.classes.find? (fun c => c.id == class_id)

/-- Embeds the count query inside `crud.create_booking`:
`db.query(DBBooking).filter(DBBooking.class_id == class_id).count()`. -/
def count_bookings (db : DB) (class_id : Nat) : Nat :=
  (db.bookings.filter (fun b => b.class_id == class_id)).length

/-- Result of `crud.create_booking`: the Python function returns a `DBBooking`
on success, the string "Capacity Full" when the class is full, or `None` when
the class does not exist. -/
inductive BookingResult where
  | booked (b : DBBooking)
  | capacityFull
  | classNotFound
deriving Repr, DecidableEq

/-- Embeds `crud.create_booking`: (1) look up the class, `None` if absent;
(2) count existing bookings for the class; (3) if count >= max_capacity,
return "Capacity Full"; (4) otherwise insert the booking and commit.  Note
that `member_id` is inserted without checking that it resolves to a user row. -/
def create_booking (db : DB) (class_id : Nat) (member_id : Nat) :
    BookingResult × DB :=
  match get_class_by_id db class_id with
  | none => (.classNotFound, db)
  | some gym_class =>
    let current_bookings := count_bookings db class_id
    if (current_bookings : Int) ≥ gym_class.max_capacity then
      (.capacityFull, db)
    else
      let db_booking : DBBooking :=
        { id := db.nextBookingId, class_id := class_id, member_id := member_id }
      (.booked db_booking,
       { db with bookings := db.bookings ++ [db_booking],
                 nextBookingId := db.nextBookingId + 1 })

/-- Embeds `crud.get_bookings_by_member`. -/
def get_bookings_by_member (db : DB) (member_id : Nat) : List DBBooking :=
  db.bookings.filter (fun b => b.member_id == member_id)

/-!
Token layer (`app/auth.py` and `app/dependencies.py`).  The JWT library
(`python-jose`) is an external collaborator: a token is embedded as its
claims plus the key it was signed with (signature validity is key equality
with the process key) plus a well-formedness flag (a malformed token is one
the decoder cannot parse).  Time is an abstract integer clock measured in
minutes, matching `ACCESS_TOKEN_EXPIRE_MINUTES`; per the spec a token is
valid only strictly before its expiry.
-/

/-- Module constant `SECRET_KEY` of `app/auth.py` (the insecure fallback used
when the environment variable is absent). -/
def SECRET_KEY : String := "fallback-key-for-local-testing-only"

/-- Module constant `ACCESS_TOKEN_EXPIRE_MINUTES` of `app/auth.py`. -/
def ACCESS_TOKEN_EXPIRE_MINUTES : Int := 60

/-- Claims carried by a token: `sub` (subject email, possibly absent),
`roles` (absent on the wire is decoded as `[]` by `payload.get("roles", [])`),
`exp` and `iat`. -/
structure Payload where
  sub : Option String
  roles : List String
  exp : Int
  iat : Int
deriving Repr, DecidableEq

/-- A presented bearer token: its claims, the key it was signed with, and
whether it parses at all. -/
structure Token where
  payload : Payload
  key : String
  wellFormed : Bool
deriving Repr, DecidableEq

/-- Embeds `auth.create_access_token` as called with
`data = {"sub": sub, "roles": roles}`: sets `exp` to now plus the given delta
(or the 60-minute default) and `iat` to now, and signs with `SECRET_KEY`. -/
def create_access_token (now : Int) (sub : String) (roles : List String)
    (expires_delta : Option Int) : Token :=
  let expire :=
    match expires_delta with
    | some delta => now + delta
    | none => now + ACCESS_TOKEN_EXPIRE_MINUTES
  { payload := { sub := some sub, roles := roles, exp := expire, iat := now },
    key := SECRET_KEY,
    wellFormed := true }

/-- Embeds `jwt.decode(token, SECRET_KEY, algorithms=[ALGORITHM])` of the
external jose library: yields the claims when the token parses, its signature
verifies against the process key, and the expiry has not passed; otherwise
raises `JWTError` (embedded as `none`). -/
def jwt_decode (now : Int) (token : Token) : Option Payload :=
  if token.wellFormed = true ∧ token.key = SECRET_KEY ∧ now < token.payload.exp
  then some token.payload
  else none

/-- Result of `get_current_user`: the authenticated identity, or the single
401 `credentials_exception` (constant detail "Could not validate credentials",
shared by every failure cause). -/
inductive AuthResult where
  | ok (u : UserPublic)
  | unauthorized
deriving Repr, DecidableEq

/-- Embeds `dependencies.get_current_user`: decode the token (signature and
expiry checked by the library); 401 if the `sub` claim is absent or the
`roles` claim is missing/empty; resolve the subject email against the users
table, 401 if absent; otherwise return the stored row's public view. -/
def get_current_user (db : DB) (now : Int) (token : Token) : AuthResult :=
  match jwt_decode now token with
  | none => .unauthorized
  | some payload =>
    match payload.sub with
    | none => .unauthorized
    | some email =>
      if payload.roles = [] then .unauthorized
      else
        match get_user_by_email db email with
        | none => .unauthorized
        | some db_user => .ok (UserPublic.model_validate db_user)

/-- An API outcome: a success value, or an HTTPException with its status code
and detail string. -/
inductive Response (α : Type) where
  | ok (val : α)
  | err (status : Nat) (detail : String)
deriving Repr, DecidableEq

/-- Embeds `dependencies.role_checker(required_roles)` applied to an
authenticated user: 403 naming the allowed roles when the user's role is not
in the allow-list, the user otherwise. -/
def role_checker (required_roles : List String) (current_user : UserPublic) :
    Response UserPublic :=
  if ¬ required_roles.contains current_user.role then
    .err 403 (String.append "Not enough permissions. Required roles: "
      (String.intercalate ", " required_roles))
  else .ok current_user

/-- Pre-defined dependency `ADMIN_ONLY` of `app/dependencies.py`. -/
def ADMIN_ONLY : UserPublic → Response UserPublic :=
  role_checker ["admin"]

/-- Pre-defined dependency `TRAINER_OR_ADMIN` of `app/dependencies.py`. -/
def TRAINER_OR_ADMIN : UserPublic → Response UserPublic :=
  role_checker ["admin", "trainer"]

/-- Embeds the `/register` endpoint (`main.register_user`): 400 "Email
already registered" when the email already resolves, otherwise create the
user (role forced to "member") and return its public view with status 201. -/
def register_user (db : DB) (user_data : UserCreate) :
    Response UserPublic × DB :=
  match get_user_by_email db user_data.email with
  | some _ => (.err 400 "Email already registered", db)
  | none =>
    let res := create_user db user_data
    (.ok (UserPublic.model_validate res.1), res.2)

/-- Embeds the `/admin/update-role/{user_id}` endpoint
(`main.update_user_role`, after the `ADMIN_ONLY` gate): update via the crud
layer, 404 "User not found" when the target does not exist. -/
def update_user_role_endpoint (db : DB) (user_id : Nat) (role : String) :
    Response UserPublic × DB :=
  let res := update_user_role db user_id role
  match res.1 with
  | none => (.err 404 "User not found", res.2)
  | some db_user => (.ok (UserPublic.model_validate db_user), res.2)

/-- Embeds the `/bookings` endpoint (`main.book_class`) for an authenticated
`current_user`: 403 "Cannot book for another user." when the requested
`member_id` differs from the caller's id (checked before any ledger access);
otherwise delegate to `crud.create_booking` with the caller's id, mapping
"Capacity Full" to 409 and a missing class to 404. -/
def book_class (db : DB) (booking_data : BookingCreate)
    (current_user : UserPublic) : Response DBBooking × DB :=
  if booking_data.member_id ≠ current_user.id then
    (.err 403 "Cannot book for another user.", db)
  else
    let res := create_booking db booking_data.class_id current_user.id
    match res.1 with
    | .capacityFull => (.err 409 "Class is fully booked.", res.2)
    | .classNotFound => (.err 404 "Class not found.", res.2)
    | .booked b => (.ok b, res.2)

/-!
Sequential reachability.  A ledger state is reachable when it arises from the
empty database by a sequence of the crud-layer mutations (user creation, role
update, class creation, booking creation).  Every API endpoint factors
through these four (the endpoints only add pure checks in front), so this
over-approximates the states reachable through the API.
-/

/-- One crud-layer mutation with arbitrary request data. -/
inductive Op where
  | register (u : UserCreate)
  | newClass (c : ClassCreate)
  | book (class_id member_id : Nat)
  | setRole (user_id : Nat) (role : String)
deriving Repr, DecidableEq

/-- Applies one mutation to the database, discarding the returned value. -/
def applyOp (db : DB) : Op → DB
  | .register u => (create_user db u).2
  | .newClass c => (create_class db c).2
  | .book class_id member_id => (create_booking db class_id member_id).2
  | .setRole user_id role => (update_user_role db user_id role).2

/-- The state after running a sequence of mutations from the empty database. -/
def runOps (ops : List Op) : DB :=
  ops.foldl applyOp emptyDB

/-!
Concurrent executions of `create_booking` (for the race analysis).  The
Python function performs three database round-trips: the class lookup, the
booking count, and the insert-and-commit; the capacity comparison happens
in-process on the previously fetched count.  A thread records its program
counter, the data it has read, and its eventual result; a schedule is the
list of thread indices in the order the database serves their next
round-trip.
-/

/-- An in-flight `create_booking(class_id, member_id)` call.
Program counter: 0 = about to look up the class, 1 = about to count the
bookings, 2 = about to decide and (possibly) insert, 3 = returned. -/
structure BThread where
  class_id : Nat
  member_id : Nat
  pc : Nat
  cls : Option DBClass
  cnt : Nat
  result : Option BookingResult
deriving Repr, DecidableEq

/-- A fresh call of `create_booking(class_id, member_id)`. -/
def BThread.start (class_id member_id : Nat) : BThread :=
  { class_id := class_id, member_id := member_id, pc := 0,
    cls := none, cnt := 0, result := none }

/-- Performs the thread's next database round-trip.  Each branch is one
statement of `crud.create_booking`; the comparison at pc 2 uses the count the
thread fetched earlier, which may be stale by the time the insert commits. -/
def stepThread (db : DB) (t : BThread) : BThread × DB :=
  match t.pc with
  | 0 =>
    match get_class_by_id db t.class_id with
    | none => ({ t with pc := 3, result := some .classNotFound }, db)
    | some gym_class => ({ t with pc := 1, cls := some gym_class }, db)
  | 1 => ({ t with pc := 2, cnt := count_bookings db t.class_id }, db)
  | 2 =>
    match t.cls with
    | none => ({ t with pc := 3 }, db)
    | some gym_class =>
      if (t.cnt : Int) ≥ gym_class.max_capacity then
        ({ t with pc := 3, result := some .capacityFull }, db)
      else
        let db_booking : DBBooking :=
          { id := db.nextBookingId, class_id := t.class_id,
            member_id := t.member_id }
        ({ t with pc := 3, result := some (.booked db_booking) },
         { db with bookings := db.bookings ++ [db_booking],
                   nextBookingId := db.nextBookingId + 1 })
  | _ => (t, db)

/-- Runs a finite schedule: each entry names the thread whose next round-trip
the database serves. -/
def runSched (sched : List Nat) (ts : List BThread) (db : DB) :
    List BThread × DB :=
  match sched with
  | [] => (ts, db)
  | i :: rest =>
    match ts.get? i with
    | none => runSched rest ts db
    | some t =>
      let res := stepThread db t
      runSched rest (ts.set i res.1) res.2

/-!
Concrete scenario states used to settle individual claims.
-/

/-- Race scenario: two member accounts and one class with a single seat and
no bookings yet. -/
def raceDB : DB :=
  { users := [
      { id := 1, email := "alice@gym.test", name := "Alice",
        hashed_password := "h1", role := "member", is_active := true },
      { id := 2, email := "bob@gym.test", name := "Bob",
        hashed_password := "h2", role := "member", is_active := true }],
    classes := [
      { id := 1, name := "Yoga", trainer_id := 1, max_capacity := 1,
        duration_minutes := 60 }],
    bookings := [],
    nextUserId := 3, nextClassId := 2, nextBookingId := 1 }

/-- Race scenario: the two concurrent `create_booking` calls, one per
account, both targeting class 1. -/
def raceThreads : List BThread :=
  [BThread.start 1 1, BThread.start 1 2]

/-- Race scenario: the interleaving in which both calls read the booking
count (0) before either insert commits. -/
def raceSched : List Nat := [0, 0, 1, 1, 0, 1]

/-- Stale-role scenario: the store before the admin changes account 1's
role; the account is a member. -/
def staleDB0 : DB :=
  { users := [
      { id := 1, email := "x@gym.test", name := "X",
        hashed_password := "hx", role := "member", is_active := true }],
    classes := [], bookings := [],
    nextUserId := 2, nextClassId := 1, nextBookingId := 1 }

/-- Stale-role scenario: a token issued to account 1 while it was a member
(roles claim ["member"]), expiring at time 60. -/
def staleToken : Token :=
  create_access_token 0 "x@gym.test" ["member"] (some 60)

/-- Stale-role scenario: the store after the admin changes account 1's role
to trainer. -/
def staleDB1 : DB :=
  (update_user_role staleDB0 1 "trainer").2

/-- Duplicate-registration scenario: the request, which also tries to supply
the role "admin". -/
def dupReq : UserCreate :=
  { email := "new@gym.test", name := "New", role := "admin", password := "pw" }

/-- Duplicate-registration scenario: the store after the first successful
registration of `dupReq`. -/
def dupDB1 : DB :=
  (register_user emptyDB dupReq).2

/-- Ghost-member scenario: one account (id 1) and one class (id 1, capacity
10, no bookings); account id 42 does not exist. -/
def ghostDB : DB :=
  { users := [
      { id := 1, email := "alice@gym.test", name := "Alice",
        hashed_password := "h1", role := "member", is_active := true }],
    classes := [
      { id := 1, name := "Yoga", trainer_id := 1, max_capacity := 10,
        duration_minutes := 60 }],
    bookings := [],
    nextUserId := 2, nextClassId := 2, nextBookingId := 1 }

/-- Negative-capacity scenario: the single class-creation request with
capacity -1 (the schema accepts any integer). -/
def negCapOps : List Op :=
  [Op.newClass { name := "X", trainer_id := 1, max_capacity := -1,
                 duration_minutes := 60 }]

/-- Full-class scenario: a class with capacity 0, used to exercise the
capacity-full branch of `create_booking` on an input satisfying its
hypothesis. -/
def fullDB : DB :=
  { users := [
      { id := 1, email := "alice@gym.test", name := "Alice",
        hashed_password := "h1", role := "member", is_active := true }],
    classes := [
      { id := 1, name := "Spin", trainer_id := 1, max_capacity := 0,
        duration_minutes := 45 }],
    bookings := [],
    nextUserId := 2, nextClassId := 2, nextBookingId := 1 }

/-- Roundtrip scenario: a store holding one trainer account, used to witness
the amended issue/authenticate roundtrip. -/
def roundtripDB : DB :=
  { users := [
      { id := 1, email := "t@gym.test", name := "T",
        hashed_password := "ht", role := "trainer", is_active := true }],
    classes := [], bookings := [],
    nextUserId := 2, nextClassId := 1, nextBookingId := 1 }

/-- Sequential capacity invariant: class ids are bounded by the class
counter and pairwise distinct, bookings reference already-created classes,
and no class of nonnegative capacity is overbooked.  This is the inductive
invariant preserved by every crud-layer mutation. -/
def LedgerInv (db : DB) : Prop :=
  (∀ c ∈ db.classes, c.id < db.nextClassId) ∧
  db.classes.Pairwise (fun a b => a.id ≠ b.id) ∧
  (∀ b ∈ db.bookings, b.class_id < db.nextClassId) ∧
  (∀ c ∈ db.classes, 0 ≤ c.max_capacity →
    (count_bookings db c.id : Int) ≤ c.max_capacity)
/-- Claim C1 (code bug): the source's count-then-insert booking creation is not serialized per resource.  On a class with capacity 1 and zero bookings, the interleaving in which both concurrent `create_booking` calls read the booking count before either insert commits makes BOTH calls succeed and commits 2 bookings, violating the required one-success/one-CapacityFullError outcome. -/
theorem booking_race_two_successes :
    ((runSched raceSched raceThreads raceDB).1.map (fun t => t.result)) =
      [some (BookingResult.booked { id := 1, class_id := 1, member_id := 1 }),
       some (BookingResult.booked { id := 2, class_id := 1, member_id := 2 })] ∧
    count_bookings (runSched raceSched raceThreads raceDB).2 1 = 2 ∧
    get_class_by_id raceDB 1 =
      some { id := 1, name := "Yoga", trainer_id := 1, max_capacity := 1,
             duration_minutes := 60 } ∧
    count_bookings raceDB 1 = 0 := by decide

/-- Claim C9 (code bug): `create_booking` never checks that `member_id` resolves to an existing account.  With only account 1 in the store and class 1 at capacity 10 with no bookings, `create_booking(1, 42)` succeeds and commits a booking referencing the nonexistent account 42, where the claim requires rejection with nothing committed. -/
theorem ghost_member_booking_committed :
    get_user_by_id ghostDB 42 = none ∧
    get_class_by_id ghostDB 1 =
      some { id := 1, name := "Yoga", trainer_id := 1, max_capacity := 10,
             duration_minutes := 60 } ∧
    count_bookings ghostDB 1 = 0 ∧
    create_booking ghostDB 1 42 =
      (BookingResult.booked { id := 1, class_id := 1, member_id := 42 },
       { ghostDB with bookings := [{ id := 1, class_id := 1, member_id := 42 }],
                      nextBookingId := 2 }) := by decide

/-- Claim C2, counterexample to the claim as stated: the class schema does not constrain capacity, so a single class-creation request with capacity -1 reaches a state whose class has 0 committed bookings yet 0 is not at most -1. -/
theorem capacity_invariant_negative_capacity_cex :
    (runOps negCapOps).classes =
      [{ id := 1, name := "X", trainer_id := 1, max_capacity := -1,
         duration_minutes := 60 }] ∧
    ¬ ((count_bookings (runOps negCapOps) 1 : Int) ≤ (-1 : Int)) := by decide

/-- Claim C3, counterexample to the claim as stated: account 1 holds a token issued while its stored role was member (roles claim ["member"]); after an admin updates the stored role to trainer, authenticating that same, unexpired token yields an identity with role trainer (the NEW stored role), not the member role embedded in the token. -/
theorem stale_role_token_cex :
    staleToken.payload.roles = ["member"] ∧
    (10 : Int) < staleToken.payload.exp ∧
    get_current_user staleDB1 10 staleToken =
      AuthResult.ok { email := "x@gym.test", name := "X", role := "trainer", id := 1 } ∧
    get_current_user staleDB1 10 staleToken ≠
      AuthResult.ok { email := "x@gym.test", name := "X", role := "member", id := 1 } := by decide

/-- Claim C6, counterexample to the claim as stated: for an email that does not resolve to any stored account, authenticating the freshly issued token fails even strictly before its expiry, because `get_current_user` resolves the subject against the account store. -/
theorem issue_authenticate_roundtrip_cex :
    (0 : Int) < 100 ∧
    (1 : Int) < (create_access_token 0 "a@b.c" ["member"] (some 100)).payload.exp ∧
    get_current_user emptyDB 1 (create_access_token 0 "a@b.c" ["member"] (some 100)) =
      AuthResult.unauthorized := by decide

/-- Claim C7, counterexample to the claim as stated: the second registration of the same email fails with HTTP status 400 ("Email already registered"), not a 409-equivalent. -/
theorem duplicate_registration_status_cex :
    register_user dupDB1 dupReq = (Response.err 400 "Email already registered", dupDB1) ∧
    (Response.err 400 "Email already registered" : Response UserPublic) ≠
      Response.err 409 "Email already registered" := by decide

/-- Claim C5: a caller authenticated as account A who requests a booking for account B with B distinct from A is rejected with 403 "Cannot book for another user." and the database is returned unchanged (the check precedes every ledger access, so no booking is created or rebound). -/
theorem self_booking_rejected : ∀ (db : DB) (bd : BookingCreate) (cu : UserPublic),
    bd.member_id ≠ cu.id →
    book_class db bd cu = (Response.err 403 "Cannot book for another user.", db) := by
  intro db bd cu h
  simp [book_class, h]

/-- Claim C5, witness: the 403 rejection at a concrete store, request and caller. -/
theorem self_booking_rejected_witness :
    book_class raceDB { class_id := 1, member_id := 2 }
      { email := "alice@gym.test", name := "Alice", role := "member", id := 1 } =
      (Response.err 403 "Cannot book for another user.", raceDB) :=
  self_booking_rejected raceDB { class_id := 1, member_id := 2 }
    { email := "alice@gym.test", name := "Alice", role := "member", id := 1 } (by decide)

/-- Claim C8: `role_checker` succeeds exactly when the identity's role is in the allow-list, otherwise fails with a 403 naming the allowed roles; widening the allow-list preserves success and narrowing preserves denial. -/
theorem authorize_iff_and_monotone : ∀ (required_roles : List String) (cu : UserPublic),
    (role_checker required_roles cu = Response.ok cu ↔ cu.role ∈ required_roles) ∧
    (cu.role ∉ required_roles →
      role_checker required_roles cu =
        Response.err 403 (String.append "Not enough permissions. Required roles: "
          (String.intercalate ", " required_roles))) ∧
    (∀ wider : List String, (∀ r ∈ required_roles, r ∈ wider) →
      role_checker required_roles cu = Response.ok cu →
      role_checker wider cu = Response.ok cu) ∧
    (∀ narrower : List String, (∀ r ∈ narrower, r ∈ required_roles) →
      role_checker required_roles cu ≠ Response.ok cu →
      role_checker narrower cu ≠ Response.ok cu) := by
  intro roles cu
  refine ⟨?_, ?_, ?_, ?_⟩
  · by_cases hm : cu.role ∈ roles <;> simp [role_checker, hm]
  · intro hm
    simp [role_checker, hm]
  · intro wider hsub hok
    by_cases hm : cu.role ∈ roles
    · simp [role_checker, hsub cu.role hm]
    · simp [role_checker, hm] at hok
  · intro narrower hsub hne
    by_cases hm : cu.role ∈ narrower
    · exact absurd (by simp [role_checker, hsub cu.role hm]) hne
    · simp [role_checker, hm]

/-- Claim C8, witness: a trainer identity passes the trainer-or-admin gate. -/
theorem authorize_iff_and_monotone_witness :
    role_checker ["admin", "trainer"]
      { email := "t@gym.test", name := "T", role := "trainer", id := 1 } =
      Response.ok { email := "t@gym.test", name := "T", role := "trainer", id := 1 } :=
  (authorize_iff_and_monotone ["admin", "trainer"]
    { email := "t@gym.test", name := "T", role := "trainer", id := 1 }).1.mpr (by decide)

/-- Claim C4: `get_current_user` fails -- always with the single undistinguished 401 result -- exactly when the token is malformed, its signature does not verify, its expiry has passed, its roles claim is missing or empty, or its subject email does not resolve to a stored account; and whenever it does not fail it returns a complete identity. -/
theorem authenticate_failure_iff : ∀ (db : DB) (now : Int) (t : Token),
    (get_current_user db now t = AuthResult.unauthorized ↔
      (t.wellFormed = false ∨ ¬ t.key = SECRET_KEY ∨ t.payload.exp ≤ now ∨
       t.payload.roles = [] ∨
       (∀ email, t.payload.sub = some email → get_user_by_email db email = none))) ∧
    (get_current_user db now t ≠ AuthResult.unauthorized →
      ∃ u, get_current_user db now t = AuthResult.ok u) := by
  intro db now t
  obtain ⟨⟨sub, roles, texp, tiat⟩, key, wf⟩ := t
  constructor
  · by_cases hw : wf = true
    · subst hw
      by_cases hk : key = SECRET_KEY
      · subst hk
        by_cases he : now < texp
        · cases sub with
          | none =>
            simp [get_current_user, jwt_decode, he]
          | some email =>
            by_cases hroles : roles = []
            · simp [get_current_user, jwt_decode, he, hroles]
            · cases hfind : get_user_by_email db email with
              | none =>
                simp only [get_current_user, jwt_decode]
                rw [if_pos ⟨trivial, trivial, he⟩]
                simp only [if_neg hroles, hfind]
                constructor
                · intro _
                  refine Or.inr (Or.inr (Or.inr (Or.inr ?_)))
                  intro e he'
                  cases he'
                  exact hfind
                · intro _
                  trivial
              | some u =>
                simp only [get_current_user, jwt_decode]
                rw [if_pos ⟨trivial, trivial, he⟩]
                simp only [if_neg hroles, hfind]
                constructor
                · intro habs
                  cases habs
                · intro h
                  rcases h with h | h | h | h | h
                  · cases h
                  · exact absurd trivial h
                  · omega
                  · exact absurd h hroles
                  · have hcontr := h email rfl
                    rw [hfind] at hcontr
                    cases hcontr
        · have hle : texp ≤ now := by omega
          simp [get_current_user, jwt_decode, he, hle]
      · simp [get_current_user, jwt_decode, hk]
    · have hwf : wf = false := by cases wf <;> simp_all
      simp [get_current_user, jwt_decode, hwf]
  · intro h
    cases hres : get_current_user db now
        { payload := { sub := sub, roles := roles, exp := texp, iat := tiat },
          key := key, wellFormed := wf } with
    | ok u => exact ⟨u, rfl⟩
    | unauthorized => exact absurd hres h

/-- Claim C3, amended: every identity returned by `get_current_user` is the public view of a row currently in the account store, so the role (and every other field) is re-read from the store at each request; a role change therefore takes effect on the very next authenticated request, with no re-authentication needed. -/
theorem authenticate_role_from_store : ∀ (db : DB) (now : Int) (t : Token) (u : UserPublic),
    get_current_user db now t = AuthResult.ok u →
    ∃ db_user, db_user ∈ db.users ∧ u = UserPublic.model_validate db_user := by
  intro db now t u h
  unfold get_current_user at h
  split at h
  · exact absurd h (by simp)
  · split at h
    · exact absurd h (by simp)
    · split at h
      · exact absurd h (by simp)
      · split at h
        · exact absurd h (by simp)
        · rename_i db_user hfind
          injection h with h'
          exact ⟨db_user, List.mem_of_find?_eq_some hfind, h'.symm⟩

/-- Claim C3, witness: the identity produced after the role update is the stored row's view. -/
theorem authenticate_role_from_store_witness :
    ∃ db_user, db_user ∈ staleDB1.users ∧
      ({ email := "x@gym.test", name := "X", role := "trainer", id := 1 } : UserPublic) =
        UserPublic.model_validate db_user :=
  authenticate_role_from_store staleDB1 10 staleToken
    { email := "x@gym.test", name := "X", role := "trainer", id := 1 } (by decide)

/-- Claim C6, amended: if the email resolves to a stored account whose role equals the issued role, then authenticating `create_access_token(email, [role], ttl)` at any time strictly before its expiry succeeds with an identity carrying that email and role. -/
theorem issue_authenticate_roundtrip : ∀ (db : DB) (email role : String) (u : DBUser) (now ttl now' : Int),
    get_user_by_email db email = some u → u.role = role → 0 < ttl →
    now' < now + ttl →
    get_current_user db now' (create_access_token now email [role] (some ttl)) =
      AuthResult.ok { email := email, name := u.name, role := role, id := u.id } := by
  intro db email role u now ttl now' hfind hrole _ hexp
  have hemail : u.email = email := by
    have hbeq := List.find?_some hfind
    simpa using hbeq
  simp [get_current_user, jwt_decode, create_access_token, hexp, hfind,
    UserPublic.model_validate, hemail, hrole]

/-- Claim C6, witness: the roundtrip at a concrete store, token and clock. -/
theorem issue_authenticate_roundtrip_witness :
    get_current_user roundtripDB 30
        (create_access_token 0 "t@gym.test" ["trainer"] (some 60)) =
      AuthResult.ok { email := "t@gym.test", name := "T", role := "trainer", id := 1 } :=
  issue_authenticate_roundtrip roundtripDB "t@gym.test" "trainer"
    { id := 1, email := "t@gym.test", name := "T", hashed_password := "ht",
      role := "trainer", is_active := true }
    0 60 30 (by decide) (by decide) (by decide) (by decide)

/-- Claim C7, amended: registering a fresh email succeeds and stores role "member" regardless of the role supplied in the request; immediately re-registering the same email fails with 400 "Email already registered", leaves the store unchanged, and exactly one account with that email is stored. -/
theorem registration_duplicate_and_member_role : ∀ (db : DB) (u : UserCreate),
    get_user_by_email db u.email = none →
    register_user db u =
      (Response.ok (UserPublic.model_validate (create_user db u).1),
       (create_user db u).2) ∧
    (create_user db u).1.role = "member" ∧
    ((create_user db u).2.users.filter (fun v => v.email == u.email)).length = 1 ∧
    register_user (create_user db u).2 u =
      (Response.err 400 "Email already registered", (create_user db u).2) := by
  intro db u hfind
  have hnone : ∀ v ∈ db.users, ¬(v.email == u.email) = true := by
    intro v hv
    exact List.find?_eq_none.mp hfind v hv
  refine ⟨?_, rfl, ?_, ?_⟩
  · simp [register_user, hfind]
  · simp [create_user, List.filter_append, List.filter_eq_nil_iff.mpr hnone]
  · have hfind2 : get_user_by_email (create_user db u).2 u.email =
        some (create_user db u).1 := by
      have hfind' : db.users.find? (fun v => v.email == u.email) = none := hfind
      simp [get_user_by_email, create_user, List.find?_append, hfind']
    simp [register_user, hfind2]

/-- Claim C7, witness: double registration of a concrete request that supplies role "admin". -/
theorem registration_duplicate_and_member_role_witness :
    register_user emptyDB dupReq =
      (Response.ok (UserPublic.model_validate (create_user emptyDB dupReq).1),
       (create_user emptyDB dupReq).2) ∧
    (create_user emptyDB dupReq).1.role = "member" ∧
    ((create_user emptyDB dupReq).2.users.filter
        (fun v => v.email == dupReq.email)).length = 1 ∧
    register_user (create_user emptyDB dupReq).2 dupReq =
      (Response.err 400 "Email already registered", (create_user emptyDB dupReq).2) :=
  registration_duplicate_and_member_role emptyDB dupReq (by decide)

lemma setRoleFirst_split (users : List DBUser) (uid : Nat) (u : DBUser)
    (role : String) (h : users.find? (fun v => v.id == uid) = some u) :
    ∃ l1 l2, users = l1 ++ u :: l2 ∧ (∀ v ∈ l1, v.id ≠ uid) ∧ u.id = uid ∧
      setRoleFirst users uid role = l1 ++ { u with role := role } :: l2 := by
  induction users with
  | nil => cases h
  | cons a as ih =>
    by_cases ha : (a.id == uid) = true
    · rw [List.find?_cons_of_pos as ha] at h
      injection h with h'
      subst h'
      refine ⟨[], as, rfl, by simp, by simpa using ha, ?_⟩
      simp [setRoleFirst, ha]
    · rw [List.find?_cons_of_neg as ha] at h
      obtain ⟨l1, l2, hsplit, hl1, huid, hset⟩ := ih h
      refine ⟨a :: l1, l2, by rw [hsplit]; rfl, ?_, huid, ?_⟩
      · intro v hv
        rcases List.mem_cons.mp hv with rfl | hv'
        · simpa using ha
        · exact hl1 v hv'
      · simp [setRoleFirst, ha, hset]

/-- Claim C10: if the target account exists, `update_user_role` changes only that account's role field -- its other fields, every other account, and the classes and bookings tables are untouched -- and the endpoint returns the updated view; if the target does not exist, the endpoint reports 404 and the whole store is unchanged. -/
theorem update_role_frame : ∀ (db : DB) (uid : Nat) (role : String),
    (∀ u, get_user_by_id db uid = some u →
      update_user_role db uid role =
        (some { u with role := role },
         { db with users := setRoleFirst db.users uid role }) ∧
      update_user_role_endpoint db uid role =
        (Response.ok (UserPublic.model_validate { u with role := role }),
         { db with users := setRoleFirst db.users uid role }) ∧
      ∃ l1 l2, db.users = l1 ++ u :: l2 ∧ (∀ v ∈ l1, v.id ≠ uid) ∧ u.id = uid ∧
        setRoleFirst db.users uid role = l1 ++ { u with role := role } :: l2) ∧
    (get_user_by_id db uid = none →
      update_user_role db uid role = (none, db) ∧
      update_user_role_endpoint db uid role =
        (Response.err 404 "User not found", db)) := by
  intro db uid role
  constructor
  · intro u hu
    refine ⟨?_, ?_, setRoleFirst_split db.users uid u role hu⟩
    · simp [update_user_role, hu]
    · simp [update_user_role_endpoint, update_user_role, hu]
  · intro hnone
    refine ⟨?_, ?_⟩
    · simp [update_user_role, hnone]
    · simp [update_user_role_endpoint, update_user_role, hnone]

/-- Claim C10, witness: the role update on a concrete store. -/
theorem update_role_frame_witness :
    update_user_role staleDB0 1 "trainer" =
      (some { id := 1, email := "x@gym.test", name := "X", hashed_password := "hx",
              role := "trainer", is_active := true },
       { staleDB0 with users := setRoleFirst staleDB0.users 1 "trainer" }) :=
  ((update_role_frame staleDB0 1 "trainer").1
    { id := 1, email := "x@gym.test", name := "X", hashed_password := "hx",
      role := "member", is_active := true } (by decide)).1

lemma ledgerInv_empty : LedgerInv emptyDB := by
  simp [LedgerInv, emptyDB, count_bookings]

lemma ledgerInv_applyOp (db : DB) (op : Op) (h : LedgerInv db) :
    LedgerInv (applyOp db op) := by
  obtain ⟨h1, h2, h3, h4⟩ := h
  cases op with
  | register u => exact ⟨h1, h2, h3, h4⟩
  | setRole uid r =>
    simp only [applyOp, update_user_role]
    cases hfind : get_user_by_id db uid with
    | none => exact ⟨h1, h2, h3, h4⟩
    | some du => exact ⟨h1, h2, h3, h4⟩
  | newClass c =>
    simp only [applyOp, create_class]
    refine ⟨?_, ?_, ?_, ?_⟩
    · intro cl hcl
      rcases List.mem_append.mp hcl with hcl | hcl
      · exact Nat.lt_succ_of_lt (h1 cl hcl)
      · rw [List.mem_singleton] at hcl
        subst hcl
        exact Nat.lt_succ_self _
    · rw [List.pairwise_append]
      refine ⟨h2, by simp, ?_⟩
      intro a ha b hb
      rw [List.mem_singleton] at hb
      subst hb
      exact Nat.ne_of_lt (h1 a ha)
    · intro b hb
      exact Nat.lt_succ_of_lt (h3 b hb)
    · intro cl hcl hcap
      rcases List.mem_append.mp hcl with hcl | hcl
      · exact h4 cl hcl hcap
      · rw [List.mem_singleton] at hcl
        subst hcl
        have hfilter : db.bookings.filter
            (fun b => b.class_id == db.nextClassId) = [] := by
          refine List.filter_eq_nil_iff.mpr ?_
          intro b hb
          simpa using Nat.ne_of_lt (h3 b hb)
        simpa [count_bookings, hfilter] using hcap
  | book cid mid =>
    simp only [applyOp, create_booking]
    split
    · exact ⟨h1, h2, h3, h4⟩
    · rename_i gc hfind
      have hgc_mem : gc ∈ db.classes := List.mem_of_find?_eq_some hfind
      have hgc_id : gc.id = cid := by simpa using List.find?_some hfind
      split
      · exact ⟨h1, h2, h3, h4⟩
      · rename_i hfull
        push_neg at hfull
        refine ⟨h1, h2, ?_, ?_⟩
        · intro b hb
          rcases List.mem_append.mp hb with hb | hb
          · exact h3 b hb
          · rw [List.mem_singleton] at hb
            subst hb
            simpa using hgc_id ▸ h1 gc hgc_mem
        · intro cl hcl hcap
          by_cases hid : cl.id = cid
          · have hcl_eq : cl = gc := by
              by_contra hne
              exact List.Pairwise.forall (fun a b hab => Ne.symm hab) h2
                hcl hgc_mem hne (hid.trans hgc_id.symm)
            have hcount : count_bookings
                { db with bookings := db.bookings ++ [{ id := db.nextBookingId, class_id := cid, member_id := mid }], nextBookingId := db.nextBookingId + 1 } cl.id =
                count_bookings db cid + 1 := by
              simp [count_bookings, List.filter_append, hid]
            rw [hcount]
            subst hcl_eq
            push_cast
            omega
          · have hcount : count_bookings
                { db with bookings := db.bookings ++ [{ id := db.nextBookingId, class_id := cid, member_id := mid }], nextBookingId := db.nextBookingId + 1 } cl.id =
                count_bookings db cl.id := by
              simp [count_bookings, List.filter_append,
                show ¬(cid == cl.id) = true by simpa using fun hh => hid hh.symm]
            rw [hcount]
            exact h4 cl hcl hcap

lemma ledgerInv_foldl : ∀ (ops : List Op) (db : DB),
    LedgerInv db → LedgerInv (ops.foldl applyOp db) := by
  intro ops
  induction ops with
  | nil => intro db h; exact h
  | cons op rest ih => intro db h; exact ih (applyOp db op) (ledgerInv_applyOp db op h)

lemma ledgerInv_runOps (ops : List Op) : LedgerInv (runOps ops) :=
  ledgerInv_foldl ops emptyDB ledgerInv_empty

/-- Claim C2, amended: in every state reachable by sequential crud operations from the empty database, no class of nonnegative capacity has more committed bookings than its capacity (a negative capacity, which the schema does not rule out, trivially exceeds the zero bookings such a class can ever have); and on any state, `create_booking` fails with the capacity-full result inserting nothing whenever the count has reached the capacity, and otherwise inserts exactly one booking. -/
theorem capacity_invariant_reachable :
    (∀ (ops : List Op), ∀ c ∈ (runOps ops).classes, 0 ≤ c.max_capacity →
      (count_bookings (runOps ops) c.id : Int) ≤ c.max_capacity) ∧
    (∀ (db : DB) (cid mid : Nat) (gc : DBClass),
      get_class_by_id db cid = some gc →
      (gc.max_capacity ≤ (count_bookings db cid : Int) →
        create_booking db cid mid = (BookingResult.capacityFull, db)) ∧
      ((count_bookings db cid : Int) < gc.max_capacity →
        create_booking db cid mid =
          (BookingResult.booked
            { id := db.nextBookingId, class_id := cid, member_id := mid },
           { db with bookings := db.bookings ++ [{ id := db.nextBookingId, class_id := cid, member_id := mid }], nextBookingId := db.nextBookingId + 1 }))) := by
  constructor
  · intro ops
    exact (ledgerInv_runOps ops).2.2.2
  · intro db cid mid gc hfind
    constructor
    · intro hge
      simp only [create_booking, hfind]
      rw [if_pos hge]
    · intro hlt
      simp only [create_booking, hfind]
      rw [if_neg (not_le.mpr hlt)]

/-- Claim C4, witness: a token with a valid signature but passed expiry is
rejected. -/
theorem authenticate_failure_iff_witness :
    get_current_user emptyDB 100
        (create_access_token 0 "a@b.c" ["member"] (some 50)) =
      AuthResult.unauthorized :=
  (authenticate_failure_iff emptyDB 100
      (create_access_token 0 "a@b.c" ["member"] (some 50))).1.mpr
    (Or.inr (Or.inr (Or.inl (by decide))))

/-- Claim C2, witness: on a concrete full class (capacity 0) the
capacity-full branch fires and the state is unchanged. -/
theorem capacity_invariant_reachable_witness :
    create_booking fullDB 1 7 = (BookingResult.capacityFull, fullDB) :=
  ((capacity_invariant_reachable).2 fullDB 1 7
      { id := 1, name := "Spin", trainer_id := 1, max_capacity := 0,
        duration_minutes := 45 } (by decide)).1 (by decide)

